import Mathlib

/-!
Verification of the realtime voice streaming client
(`src/realtime_voice_client.py`, class `RealtimeVoiceClient`).

The Python code is shallowly embedded: each method that the properties
touch becomes a pure Lean function over explicit state, with observable
side effects (queue puts, transcript-callback invocations, log lines,
device/transport release calls) reified as effect lists.  Library calls
(`base64.b64encode` / `base64.b64decode`, `json.loads`) are modelled at
the level of their observable behaviour; the base64 model reproduces
CPython's lenient `binascii.a2b_base64` semantics (non-alphabet
characters are discarded; an error is raised when the number of data
characters is 1 more than a multiple of 4, or when a final partial quad
is not completed by padding; padding that completes a quad ends the
parse).
-/

/-- The base64 value of an alphabet character, `none` for every character
outside the alphabet (`=` is handled separately by the decoder). -/
def decDigit (c : Char) : Option Nat :=
  if 'A' ≤ c ∧ c ≤ 'Z' then some (c.toNat - 65)
  else if 'a' ≤ c ∧ c ≤ 'z' then some (c.toNat - 97 + 26)
  else if '0' ≤ c ∧ c ≤ '9' then some (c.toNat - 48 + 52)
  else if c = '+' then some 62
  else if c = '/' then some 63
  else none

/-- The alphabet character of a 6-bit value (values ≥ 64 never arise from
encoding bytes < 256). -/
def encChar (n : Nat) : Char :=
  if n < 26 then Char.ofNat (65 + n)
  else if n < 52 then Char.ofNat (97 + (n - 26))
  else if n < 62 then Char.ofNat (48 + (n - 52))
  else if n = 62 then '+'
  else '/'

/-- `base64.b64encode(bytes).decode("utf-8")` as used at
`realtime_voice_client.py:188`: groups of three bytes become four
alphabet characters; a final group of one or two bytes is padded with
`==` or `=`. -/
def b64encodeList : List Nat → List Char
  | [] => []
  | [a] => [encChar (a / 4), encChar (a % 4 * 16), '=', '=']
  | [a, b] => [encChar (a / 4), encChar (a % 4 * 16 + b / 16),
               encChar (b % 16 * 4), '=']
  | a :: b :: c :: rest =>
      encChar (a / 4) :: encChar (a % 4 * 16 + b / 16) ::
      encChar (b % 16 * 4 + c / 64) :: encChar (c % 64) ::
      b64encodeList rest

def b64encode (bytes : List Nat) : String := ⟨b64encodeList bytes⟩

/-- Decoder loop, mirroring CPython `binascii.a2b_base64` in legacy
(non-strict) mode.  `quadPos` is the position inside the current group of
four, `pads` the count of padding characters seen at positions ≥ 2 of the
current quad, `leftover` the bits of the current quad not yet emitted,
`out` the bytes emitted so far. -/
def b64decodeAux : List Char → Nat → Nat → Nat → List Nat → Option (List Nat)
  | [], 0, _, _, out => some out
  | [], _ + 1, _, _, _ => none
  | c :: cs, quadPos, pads, leftover, out =>
    if c = '=' then
      if 2 ≤ quadPos then
        if 4 ≤ quadPos + (pads + 1) then some out
        else b64decodeAux cs quadPos (pads + 1) leftover out
      else b64decodeAux cs quadPos pads leftover out
    else
      match decDigit c with
      | none => b64decodeAux cs quadPos pads leftover out
      | some d =>
        match quadPos with
        | 0 => b64decodeAux cs 1 0 d out
        | 1 => b64decodeAux cs 2 0 (d % 16) (out ++ [leftover * 4 + d / 16])
        | 2 => b64decodeAux cs 3 0 (d % 4) (out ++ [leftover * 16 + d / 4])
        | _ => b64decodeAux cs 0 0 0 (out ++ [leftover * 64 + d])

/-- `base64.b64decode(s)` as used at `realtime_voice_client.py:250`:
`some bytes` on success, `none` when `binascii.Error` is raised. -/
def b64decode (s : String) : Option (List Nat) :=
  b64decodeAux s.data 0 0 0 []

example : b64decode "AAEC" = some [0, 1, 2] := by decide
example : b64decode "A" = none := by decide
example : b64decode "AB" = none := by decide
example : b64decode "AB==" = some [0] := by decide
example : b64decode "!!!" = some [] := by decide
example : b64decode "A!B!C!D!" = some [0, 16, 131] := by decide
example : b64decode "AB==CD" = some [0] := by decide
example : b64decode "QQ==" = some [65] := by decide
example : b64encode [0, 1, 2] = "AAEC" := by decide
example : b64encode [65] = "QQ==" := by decide
example : b64encode [0, 1] = "AAE=" := by decide

/-! ## Inbound events and the dispatcher (`_handle_event`, lines 217-258) -/

/-- The fields of a parsed inbound JSON event that `_handle_event` reads
via `event.get(...)`; an absent key is `none` (Python `dict.get` default
`""` is applied inside the handler, as in the source). -/
structure JsonEvent where
  type : Option String := none
  transcript : Option String := none
  delta : Option String := none
deriving DecidableEq, Repr

/-- Observable side effects of the receive path: a `playback_queue.put`
of decoded bytes, a `transcript_callback(role, text)` invocation, the
`logger.warning` that skips a JSON-undecodable message (carrying the raw
text), and the `logger.error` of the catch-all that ends
`_receive_events`. -/
inductive Effect
  | enqueue (chunk : List Nat)
  | sink (role : String) (text : String)
  | logSkip (raw : String)
  | logRecvError
deriving DecidableEq, Repr

/-- `RealtimeVoiceClient._handle_event` (lines 217-258).  `cbSet` is
whether `self.transcript_callback` is not `None`.  Branches that only
log (`session.created`, `session.updated`, `response.audio.done`,
`error`, unrecognized types) produce no modelled effect.  The result is
`.error ()` when `base64.b64decode` raises (line 250) — the exception
propagates out of the handler. -/
def handleEvent (cbSet : Bool) (e : JsonEvent) : Except Unit (List Effect) :=
  if e.type = some "session.created" then .ok []
  else if e.type = some "session.updated" then .ok []
  else if e.type = some "conversation.item.input_audio_transcription.completed" then
    let transcript := e.transcript.getD ""
    if transcript ≠ "" ∧ cbSet = true then .ok [.sink "user" transcript]
    else .ok []
  else if e.type = some "response.audio_transcript.delta" then .ok []
  else if e.type = some "response.audio_transcript.done" then
    let transcript := e.transcript.getD ""
    if transcript ≠ "" ∧ cbSet = true then .ok [.sink "assistant" transcript]
    else .ok []
  else if e.type = some "response.audio.delta" then
    let audio_b64 := e.delta.getD ""
    if audio_b64 ≠ "" then
      match b64decode audio_b64 with
      | some bytes => .ok [.enqueue bytes]
      | none => .error ()
    else .ok []
  else if e.type = some "response.audio.done" then .ok []
  else if e.type = some "error" then .ok []
  else .ok []

/-- One inbound wire message as seen by `_receive_events`: either a text
that `json.loads` rejects with `JSONDecodeError`, or a parsed event. -/
inductive WireMsg
  | garbage (raw : String)
  | parsed (e : JsonEvent)
deriving DecidableEq, Repr

/-- `RealtimeVoiceClient._receive_events` (lines 200-215) over a stream
of messages, with `self.running` true throughout.  A `JSONDecodeError`
is caught by the inner `except` (line 210): the message is logged and
skipped and the loop continues.  Any other exception escaping
`_handle_event` (such as `binascii.Error` from `b64decode`) is not a
`JSONDecodeError`, so it reaches the outer `except Exception`
(line 214): the loop logs and returns, processing no further message. -/
def receiveEvents (cbSet : Bool) : List WireMsg → List Effect
  | [] => []
  | .garbage raw :: rest => .logSkip raw :: receiveEvents cbSet rest
  | .parsed e :: rest =>
    match handleEvent cbSet e with
    | .ok effs => effs ++ receiveEvents cbSet rest
    | .error _ => [.logRecvError]

/-- The chunks put on the playback queue, in order, among a list of
effects. -/
def enqueues (effs : List Effect) : List (List Nat) :=
  effs.filterMap fun | .enqueue c => some c | _ => none

/-- The transcript-callback invocations, in order, among a list of
effects. -/
def sinkCalls (effs : List Effect) : List (String × String) :=
  effs.filterMap fun | .sink r t => some (r, t) | _ => none

/-- An inbound `response.audio.delta` wire message with base64 payload
`p`. -/
def audioDeltaMsg (p : String) : WireMsg :=
  .parsed { type := some "response.audio.delta", delta := some p }

/-- An inbound `response.audio_transcript.delta` wire message with text
fragment `d`. -/
def transcriptDeltaMsg (d : String) : WireMsg :=
  .parsed { type := some "response.audio_transcript.delta", delta := some d }

/-- An inbound `response.audio_transcript.done` wire message carrying
the full text `t`. -/
def transcriptDoneMsg (t : String) : WireMsg :=
  .parsed { type := some "response.audio_transcript.done", transcript := some t }

/-- An inbound `conversation.item.input_audio_transcription.completed`
wire message carrying the transcript `t`. -/
def inputCompletedMsg (t : String) : WireMsg :=
  .parsed { type := some "conversation.item.input_audio_transcription.completed",
            transcript := some t }

example : receiveEvents true [audioDeltaMsg "AAEC"] = [.enqueue [0, 1, 2]] := by decide
example : receiveEvents true [audioDeltaMsg "A", audioDeltaMsg "AAEC"]
    = [.logRecvError] := by decide

/-! ## Playback loop (`_play_audio`, lines 260-275) -/

/-- `RealtimeVoiceClient._play_audio` over the queued chunks, with
`self.running` and the output stream active throughout; `writeRaises c`
says whether `self.output_stream.write(c)` raises for chunk `c`.  The
inner `except` (line 271) catches only `asyncio.TimeoutError`, so a
write exception reaches the outer `except Exception` (line 274): it is
logged and the loop returns.  The result is the list of chunks written
to the output device. -/
def playAudio (writeRaises : List Nat → Bool) : List (List Nat) → List (List Nat)
  | [] => []
  | c :: rest =>
    if writeRaises c then []
    else c :: playAudio writeRaises rest

example : playAudio (fun c => c == [7]) [[1], [7], [2]] = [[1]] := by decide

/-! ## Lifecycle (`stop` lines 306-318, `_cleanup_audio` lines 162-175,
`start` lines 277-304) -/

/-- The mutable handles of a `RealtimeVoiceClient` that the lifecycle
methods touch: `self.running`, and whether `self.input_stream`,
`self.output_stream`, `self.audio` and `self.ws` are not `None`.  None
of the methods ever assigns `None` back to a handle. -/
structure ClientHandles where
  running : Bool := false
  inputStream : Bool := false
  outputStream : Bool := false
  audio : Bool := false
  ws : Bool := false
deriving DecidableEq, Repr

/-- Resource-release calls issued by `stop`/`_cleanup_audio`:
`input_stream.stop_stream()`, `input_stream.close()`,
`output_stream.stop_stream()`, `output_stream.close()`,
`audio.terminate()`, `ws.close()`. -/
inductive ResEffect
  | inputStop
  | inputClose
  | outputStop
  | outputClose
  | audioTerminate
  | wsClose
deriving DecidableEq, Repr

/-- `RealtimeVoiceClient._cleanup_audio` (lines 162-175): for each
non-`None` handle, issue its stop/close/terminate calls.  The handles
are not cleared. -/
def cleanupAudio (s : ClientHandles) : List ResEffect :=
  (if s.inputStream then [.inputStop, .inputClose] else []) ++
  (if s.outputStream then [.outputStop, .outputClose] else []) ++
  (if s.audio then [.audioTerminate] else [])

/-- `RealtimeVoiceClient.stop` (lines 306-318): set `running` to
`False`, run `_cleanup_audio`, then `ws.close()` if `ws` is not `None`.
Returns the new state and the release calls issued.  No handle is set
to `None` and no already-stopped check exists. -/
def stop (s : ClientHandles) : ClientHandles × List ResEffect :=
  ({ s with running := false },
   cleanupAudio s ++ if s.ws then [.wsClose] else [])

/-- The handle state of a client whose `start()` has completed its setup
phase: connection open, both streams open, `running = True`. -/
def startedHandles : ClientHandles :=
  { running := true, inputStream := true, outputStream := true,
    audio := true, ws := true }

/-- Errors of the start path.  `connectError` models `websockets.connect`
raising inside `connect` (line 103, re-raised at line 111).  No
`AlreadyStartedError` exists anywhere in the repository. -/
inductive StartErr
  | connectError
deriving DecidableEq, Repr

/-- Setup actions performed by `start`. -/
inductive StartEffect
  | connect
  | configureSession
  | openInput
  | openOutput
  | setRunning
deriving DecidableEq, Repr

/-- The setup phase of `RealtimeVoiceClient.start` (lines 277-297), up
to and including launching the three loops: `connect()` (which sends the
session configuration), `_setup_audio()` (opens both streams), then
`self.running = True`.  `connectOk` says whether the transport connect
succeeds.  The body performs no check of `self.running` and no
already-started guard of any kind, so the function acts the same on a
fresh client and on one that is already running. -/
def startSetup (connectOk : Bool) (s : ClientHandles) :
    Except StartErr (ClientHandles × List StartEffect) :=
  if connectOk then
    .ok ({ s with ws := true, inputStream := true, outputStream := true,
                  audio := true, running := true },
         [.connect, .configureSession, .openInput, .openOutput, .setRunning])
  else .error .connectError

/-! ## Outbound messages (`connect` lines 80-111, `_configure_session`
lines 113-134, `_send_audio` lines 177-198) -/

/-- JSON values, for the bodies of the messages the client sends. -/
inductive Json
  | str (s : String)
  | num (q : Rat)
  | arr (xs : List Json)
  | obj (fields : List (String × Json))
deriving Repr

/-- The configuration dictionary read in `__init__` (lines 47-53); only
the fields the modelled methods use. -/
structure Config where
  endpoint : String
  apiKey : String
  deployment : String
  apiVersion : String := "2024-10-01-preview"
  sampleRate : Nat := 16000
  systemPrompt : String := "You are a helpful assistant."
deriving DecidableEq, Repr

/-- The headers passed to `websockets.connect` (lines 98-103): the API
key travels as the `api-key` connection header. -/
def connectHeaders (c : Config) : List (String × String) :=
  [("api-key", c.apiKey)]

/-- The `session.update` body built in `_configure_session`
(lines 115-131) and sent once right after connecting. -/
def configEvent (c : Config) : Json :=
  .obj [("type", .str "session.update"),
        ("session", .obj
          [("modalities", .arr [.str "text", .str "audio"]),
           ("instructions", .str c.systemPrompt),
           ("voice", .str "alloy"),
           ("input_audio_format", .str "pcm16"),
           ("output_audio_format", .str "pcm16"),
           ("input_audio_transcription", .obj [("model", .str "whisper-1")]),
           ("turn_detection", .obj
             [("type", .str "server_vad"),
              ("threshold", .num (1 / 2)),
              ("prefix_padding_ms", .num 300),
              ("silence_duration_ms", .num 500)])])]

/-- The body built per frame in `_send_audio` (line 191):
`{"type": "input_audio_buffer.append", "audio": base64(frame)}`. -/
def audioAppendEvent (frame : List Nat) : Json :=
  .obj [("type", .str "input_audio_buffer.append"),
        ("audio", .str (b64encode frame))]

/-- The capture loop `_send_audio` (lines 177-198) over the successive
frames read from the input stream while `running` holds: each frame is
wrapped and sent as exactly one message, in order. -/
def sendAudio (frames : List (List Nat)) : List Json :=
  match frames with
  | [] => []
  | f :: rest => audioAppendEvent f :: sendAudio rest

/-- Everything the client sends over the transport in a session: the
single session-configuration message, then one append message per
captured frame. -/
def sentAppMessages (c : Config) (frames : List (List Nat)) : List Json :=
  configEvent c :: sendAudio frames

/-- The `audio` field of an append message body. -/
def audioField (j : Json) : Option String :=
  match j with
  | .obj [_, ("audio", .str a)] => some a
  | _ => none

/-! ## Base64 round trip -/

lemma decDigit_encChar : ∀ d : Nat, d < 64 → decDigit (encChar d) = some d := by
  decide

lemma encChar_ne_pad : ∀ d : Nat, d < 64 → encChar d ≠ '=' := by
  decide

lemma aux_step0 (d : Nat) (hd : d < 64) (cs : List Char) (p l : Nat)
    (out : List Nat) :
    b64decodeAux (encChar d :: cs) 0 p l out = b64decodeAux cs 1 0 d out := by
  simp [b64decodeAux, encChar_ne_pad d hd, decDigit_encChar d hd]

lemma aux_step1 (d : Nat) (hd : d < 64) (cs : List Char) (p l : Nat)
    (out : List Nat) :
    b64decodeAux (encChar d :: cs) 1 p l out
      = b64decodeAux cs 2 0 (d % 16) (out ++ [l * 4 + d / 16]) := by
  simp [b64decodeAux, encChar_ne_pad d hd, decDigit_encChar d hd]

lemma aux_step2 (d : Nat) (hd : d < 64) (cs : List Char) (p l : Nat)
    (out : List Nat) :
    b64decodeAux (encChar d :: cs) 2 p l out
      = b64decodeAux cs 3 0 (d % 4) (out ++ [l * 16 + d / 4]) := by
  simp [b64decodeAux, encChar_ne_pad d hd, decDigit_encChar d hd]

lemma aux_step3 (d : Nat) (hd : d < 64) (cs : List Char) (p l : Nat)
    (out : List Nat) :
    b64decodeAux (encChar d :: cs) 3 p l out
      = b64decodeAux cs 0 0 0 (out ++ [l * 64 + d]) := by
  simp [b64decodeAux, encChar_ne_pad d hd, decDigit_encChar d hd]

lemma aux_pad2_first (cs : List Char) (l : Nat) (out : List Nat) :
    b64decodeAux ('=' :: cs) 2 0 l out = b64decodeAux cs 2 1 l out := by
  simp [b64decodeAux]

lemma aux_pad2_second (cs : List Char) (l : Nat) (out : List Nat) :
    b64decodeAux ('=' :: cs) 2 1 l out = some out := by
  simp [b64decodeAux]

lemma aux_pad3 (cs : List Char) (l : Nat) (out : List Nat) :
    b64decodeAux ('=' :: cs) 3 0 l out = some out := by
  simp [b64decodeAux]

lemma aux_block (a b c : Nat) (ha : a < 256) (hb : b < 256) (hc : c < 256)
    (cs : List Char) (p : Nat) (out : List Nat) :
    b64decodeAux (encChar (a / 4) :: encChar (a % 4 * 16 + b / 16) ::
        encChar (b % 16 * 4 + c / 64) :: encChar (c % 64) :: cs) 0 p 0 out
      = b64decodeAux cs 0 0 0 (out ++ [a, b, c]) := by
  rw [aux_step0 _ (by omega), aux_step1 _ (by omega), aux_step2 _ (by omega),
      aux_step3 _ (by omega)]
  have e1 : a / 4 * 4 + (a % 4 * 16 + b / 16) / 16 = a := by omega
  have e2 : (a % 4 * 16 + b / 16) % 16 = b / 16 := by omega
  have e3 : b / 16 * 16 + (b % 16 * 4 + c / 64) / 4 = b := by omega
  have e4 : (b % 16 * 4 + c / 64) % 4 = c / 64 := by omega
  have e5 : c / 64 * 64 + c % 64 = c := by omega
  rw [e1, e2, e3, e4, e5]
  simp

lemma aux_tail1 (a : Nat) (ha : a < 256) (p : Nat) (out : List Nat) :
    b64decodeAux [encChar (a / 4), encChar (a % 4 * 16), '=', '='] 0 p 0 out
      = some (out ++ [a]) := by
  rw [aux_step0 _ (by omega), aux_step1 _ (by omega)]
  have e1 : a / 4 * 4 + a % 4 * 16 / 16 = a := by omega
  rw [e1, aux_pad2_first, aux_pad2_second]

lemma aux_tail2 (a b : Nat) (ha : a < 256) (hb : b < 256) (p : Nat)
    (out : List Nat) :
    b64decodeAux [encChar (a / 4), encChar (a % 4 * 16 + b / 16),
        encChar (b % 16 * 4), '='] 0 p 0 out = some (out ++ [a, b]) := by
  rw [aux_step0 _ (by omega), aux_step1 _ (by omega), aux_step2 _ (by omega)]
  have e1 : a / 4 * 4 + (a % 4 * 16 + b / 16) / 16 = a := by omega
  have e2 : (a % 4 * 16 + b / 16) % 16 = b / 16 := by omega
  have e3 : b / 16 * 16 + b % 16 * 4 / 4 = b := by omega
  rw [e1, e2, e3, aux_pad3]
  simp

lemma b64decodeAux_encodeList (l : List Nat) (h : ∀ x ∈ l, x < 256) (p : Nat)
    (out : List Nat) :
    b64decodeAux (b64encodeList l) 0 p 0 out = some (out ++ l) := by
  induction l using b64encodeList.induct generalizing p out with
  | case1 => simp [b64encodeList, b64decodeAux]
  | case2 a =>
    have ha : a < 256 := h a (by simp)
    simpa [b64encodeList] using aux_tail1 a ha p out
  | case3 a b =>
    have ha : a < 256 := h a (by simp)
    have hb : b < 256 := h b (by simp)
    simpa [b64encodeList] using aux_tail2 a b ha hb p out
  | case4 a b c rest ih =>
    have ha : a < 256 := h a (by simp)
    have hb : b < 256 := h b (by simp)
    have hc : c < 256 := h c (by simp)
    rw [b64encodeList, aux_block a b c ha hb hc _ p out,
        ih (fun x hx => h x (by simp [hx])) 0 (out ++ [a, b, c])]
    simp

/-- Round trip: decoding an encoded byte list recovers it exactly. -/
lemma b64_roundtrip (l : List Nat) (h : ∀ x ∈ l, x < 256) :
    b64decode (b64encode l) = some l := by
  have := b64decodeAux_encodeList l h 0 []
  simpa [b64decode, b64encode] using this

/-! ## Dispatcher evaluation lemmas -/

lemma handleEvent_audioDelta (cb : Bool) (p : String) :
    handleEvent cb { type := some "response.audio.delta", delta := some p }
      = if p ≠ "" then
          match b64decode p with
          | some bytes => .ok [.enqueue bytes]
          | none => .error ()
        else .ok [] := by
  simp [handleEvent]

lemma handleEvent_transcriptDelta (cb : Bool) (d : String) :
    handleEvent cb { type := some "response.audio_transcript.delta", delta := some d }
      = .ok [] := by
  simp [handleEvent]

lemma handleEvent_transcriptDone (cb : Bool) (t : String) :
    handleEvent cb { type := some "response.audio_transcript.done", transcript := some t }
      = if t ≠ "" ∧ cb = true then .ok [.sink "assistant" t] else .ok [] := by
  simp [handleEvent]

lemma handleEvent_inputCompleted (cb : Bool) (t : String) :
    handleEvent cb
        { type := some "conversation.item.input_audio_transcription.completed",
          transcript := some t }
      = if t ≠ "" ∧ cb = true then .ok [.sink "user" t] else .ok [] := by
  simp [handleEvent]

lemma receiveEvents_audioDelta_ok (cb : Bool) (p : String) (c : List Nat)
    (hp : p ≠ "") (h : b64decode p = some c) (rest : List WireMsg) :
    receiveEvents cb (audioDeltaMsg p :: rest)
      = Effect.enqueue c :: receiveEvents cb rest := by
  simp [receiveEvents, audioDeltaMsg, handleEvent_audioDelta, hp, h]

lemma receiveEvents_audioDelta_err (cb : Bool) (p : String)
    (h : b64decode p = none) (rest : List WireMsg) :
    receiveEvents cb (audioDeltaMsg p :: rest) = [Effect.logRecvError] := by
  have hp : p ≠ "" := by
    intro e
    rw [e] at h
    simp [b64decode, b64decodeAux] at h
  simp [receiveEvents, audioDeltaMsg, handleEvent_audioDelta, hp, h]

/-! ## Claim theorems -/

/-- C1 counterexample.  The payload `"A"` is not valid base64
(`b64decode` raises); a lone valid `response.audio.delta` would enqueue
its bytes, yet with the invalid-payload message in front the receive
loop produces only the catch-all error log: the valid chunk that follows
is never enqueued, so the loop does not continue processing subsequent
messages.  Moreover the payload `"!!!"` is not valid base64 either, yet
Python's lenient decoder accepts it and a (empty) chunk is enqueued. -/
theorem c1_counterexample :
    b64decode "A" = none ∧
    receiveEvents true [audioDeltaMsg "AAEC"] = [Effect.enqueue [0, 1, 2]] ∧
    receiveEvents true [audioDeltaMsg "A", audioDeltaMsg "AAEC"]
      = [Effect.logRecvError] ∧
    Effect.enqueue [0, 1, 2]
      ∉ receiveEvents true [audioDeltaMsg "A", audioDeltaMsg "AAEC"] ∧
    receiveEvents true [audioDeltaMsg "!!!"] = [Effect.enqueue []] := by
  decide

/-- C1 amended: when base64 decoding of a `response.audio.delta` payload
raises, no chunk from that message is enqueued, but the exception
escapes the dispatcher, is caught by the receive loop's catch-all
`except Exception`, and the loop logs and terminates — subsequent
messages are not processed.  Payloads that Python's lenient decoder
accepts (non-alphabet characters discarded) are decoded and enqueued,
with the loop continuing. -/
theorem c1_base64_failure_ends_loop (cb : Bool) (p : String)
    (rest : List WireMsg) :
    (b64decode p = none →
      receiveEvents cb (audioDeltaMsg p :: rest) = [Effect.logRecvError] ∧
      enqueues (receiveEvents cb (audioDeltaMsg p :: rest)) = []) ∧
    (∀ c, b64decode p = some c → p ≠ "" →
      receiveEvents cb (audioDeltaMsg p :: rest)
        = Effect.enqueue c :: receiveEvents cb rest) := by
  constructor
  · intro h
    rw [receiveEvents_audioDelta_err cb p h rest]
    simp [enqueues]
  · intro c h hp
    exact receiveEvents_audioDelta_ok cb p c hp h rest

/-- C1 witness: the amended theorem applied at payload `"A"` followed by
a valid delta. -/
theorem c1_witness :
    receiveEvents true [audioDeltaMsg "A", audioDeltaMsg "AAEC"]
      = [Effect.logRecvError] ∧
    enqueues (receiveEvents true [audioDeltaMsg "A", audioDeltaMsg "AAEC"]) = [] :=
  (c1_base64_failure_ends_loop true "A" [audioDeltaMsg "AAEC"]).1 (by decide)

/-- C2 counterexample.  With a queue holding chunks `[0]` then `[1]` and
the device write raising on `[0]`, the playback loop writes nothing: the
chunk `[1]` queued behind the failing chunk is never played, so a single
failing chunk does terminate playback of subsequent chunks. -/
theorem c2_counterexample :
    playAudio (fun c => c == [0]) [[0], [1]] = [] ∧
    [1] ∉ playAudio (fun c => c == [0]) [[0], [1]] := by
  decide

/-- C2 amended: a device write error is logged by the outer handler and
the playback loop returns — the inner handler catches only the pop
timeout, so a failing chunk terminates playback and no subsequent queued
chunk is written; chunks before the failing one are written in order. -/
theorem c2_write_error_ends_playback (writeRaises : List Nat → Bool)
    (c : List Nat) (rest : List (List Nat)) :
    (writeRaises c = true → playAudio writeRaises (c :: rest) = []) ∧
    (writeRaises c = false →
      playAudio writeRaises (c :: rest) = c :: playAudio writeRaises rest) := by
  constructor
  · intro h
    simp [playAudio, h]
  · intro h
    simp [playAudio, h]

/-- C2 witness: the amended theorem applied to a queue `[[0], [1]]`
whose first write raises. -/
theorem c2_witness :
    playAudio (fun c => c == [0]) [[0], [1]] = [] :=
  (c2_write_error_ends_playback (fun c => c == [0]) [0] [[1]]).1 (by decide)

/-- C3 counterexample.  Starting from a fully started client, running
`stop()` twice issues the transport close and each stream release twice
across the two calls — not exactly once. -/
theorem c3_counterexample :
    ((stop startedHandles).2 ++ (stop (stop startedHandles).1).2).count
        ResEffect.wsClose = 2 ∧
    ((stop startedHandles).2 ++ (stop (stop startedHandles).1).2).count
        ResEffect.inputClose = 2 ∧
    ((stop startedHandles).2 ++ (stop (stop startedHandles).1).2).count
        ResEffect.audioTerminate = 2 := by
  decide

/-- C3 amended: `stop()` is idempotent on client state — a second call
leaves the state exactly as after the first and raises no error in the
model — but not free of duplicate resource-release side effects: the
handle fields are never cleared, so the second call re-issues every
stream stop/close, the PyAudio terminate, and the transport close. -/
theorem c3_stop_state_idempotent_effects_repeat (s : ClientHandles) :
    (stop (stop s).1).1 = (stop s).1 ∧ (stop (stop s).1).2 = (stop s).2 := by
  constructor
  · simp [stop]
  · simp [stop, cleanupAudio]

/-- C4 counterexample.  After a successful `start()` (client in the
started state), a second `start()` does not fail: it succeeds and
performs the connect/configure/setup actions again, beginning a second
session.  No `AlreadyStartedError` exists in the code. -/
theorem c4_counterexample :
    (startSetup true startedHandles).isOk = true ∧
    startSetup true startedHandles
      = .ok (startedHandles,
             [.connect, .configureSession, .openInput, .openOutput,
              .setRunning]) := by
  exact ⟨rfl, rfl⟩

/-- C4 amended: `start()` has no already-started guard and the code
defines no `AlreadyStartedError`; called on a client that is already
running, it proceeds to connect, send the session configuration, and
open the audio streams again — starting a second session rather than
failing. -/
theorem c4_no_already_started_guard (s : ClientHandles)
    (_running : s.running = true) :
    startSetup true s
      = .ok ({ s with ws := true, inputStream := true, outputStream := true,
                      audio := true, running := true },
             [.connect, .configureSession, .openInput, .openOutput,
              .setRunning]) := by
  simp [startSetup]

/-- C4 witness: the amended theorem applied to the started state. -/
theorem c4_witness :
    startSetup true startedHandles
      = .ok (startedHandles,
             [.connect, .configureSession, .openInput, .openOutput,
              .setRunning]) :=
  c4_no_already_started_guard startedHandles rfl

lemma receiveEvents_transcriptDeltas (cb : Bool) (ds : List String)
    (tail : List WireMsg) :
    receiveEvents cb (ds.map transcriptDeltaMsg ++ tail)
      = receiveEvents cb tail := by
  induction ds with
  | nil => simp
  | cons d ds ih =>
    simp [receiveEvents, transcriptDeltaMsg, handleEvent_transcriptDelta, ih]

/-- C5: any number of output-transcript delta events followed by one
done event carrying the full (non-empty) text invoke the registered
transcript sink exactly once, with role `assistant` and the full text —
no delta invokes it; a completed input transcription likewise invokes it
exactly once with role `user`. -/
theorem c5_sink_once_per_unit (ds : List String) (full t : String)
    (hfull : full ≠ "") (ht : t ≠ "") :
    sinkCalls (receiveEvents true
        (ds.map transcriptDeltaMsg ++ [transcriptDoneMsg full]))
      = [("assistant", full)] ∧
    sinkCalls (receiveEvents true [inputCompletedMsg t]) = [("user", t)] := by
  constructor
  · rw [receiveEvents_transcriptDeltas]
    simp [receiveEvents, transcriptDoneMsg, handleEvent_transcriptDone, hfull,
          sinkCalls]
  · simp [receiveEvents, inputCompletedMsg, handleEvent_inputCompleted, ht,
          sinkCalls]

/-- C5 witness: three deltas then the full text, as in the spec's test
sketch, give exactly one assistant sink call; one completed input
transcription gives exactly one user sink call. -/
theorem c5_witness :
    sinkCalls (receiveEvents true
        (["He", "llo", "!"].map transcriptDeltaMsg
          ++ [transcriptDoneMsg "Hello!"]))
      = [("assistant", "Hello!")] ∧
    sinkCalls (receiveEvents true [inputCompletedMsg "hi there"])
      = [("user", "hi there")] :=
  c5_sink_once_per_unit ["He", "llo", "!"] "Hello!" "hi there"
    (by decide) (by decide)

/-- C6: a wire message that is not valid JSON is logged and skipped and
the loop continues with the rest of the stream unchanged; concretely,
one garbage message between two valid audio deltas still gets both
chunks enqueued, in order. -/
theorem c6_garbage_nonfatal (cb : Bool) (g : String) (rest : List WireMsg)
    (p1 p2 : String) (c1 c2 : List Nat)
    (hp1 : p1 ≠ "") (hp2 : p2 ≠ "")
    (h1 : b64decode p1 = some c1) (h2 : b64decode p2 = some c2) :
    receiveEvents cb (WireMsg.garbage g :: rest)
      = Effect.logSkip g :: receiveEvents cb rest ∧
    enqueues (receiveEvents cb
        [audioDeltaMsg p1, WireMsg.garbage g, audioDeltaMsg p2])
      = [c1, c2] := by
  constructor
  · rfl
  · rw [show ([audioDeltaMsg p1, WireMsg.garbage g, audioDeltaMsg p2]
          : List WireMsg)
        = audioDeltaMsg p1 :: WireMsg.garbage g :: [audioDeltaMsg p2] from rfl,
        receiveEvents_audioDelta_ok cb p1 c1 hp1 h1,
        show receiveEvents cb (WireMsg.garbage g :: [audioDeltaMsg p2])
          = Effect.logSkip g :: receiveEvents cb [audioDeltaMsg p2] from rfl,
        receiveEvents_audioDelta_ok cb p2 c2 hp2 h2]
    simp [enqueues, receiveEvents]

/-- C6 witness: garbage between payloads `"AAEC"` and `"QQ=="`. -/
theorem c6_witness :
    receiveEvents true (WireMsg.garbage "\x7bnot json" :: [])
      = Effect.logSkip "\x7bnot json" :: receiveEvents true [] ∧
    enqueues (receiveEvents true
        [audioDeltaMsg "AAEC", WireMsg.garbage "\x7bnot json",
         audioDeltaMsg "QQ=="])
      = [[0, 1, 2], [65]] :=
  c6_garbage_nonfatal true "\x7bnot json" [] "AAEC" "QQ==" [0, 1, 2] [65]
    (by decide) (by decide) (by decide) (by decide)

lemma receiveEvents_audioDeltas (cb : Bool) :
    ∀ (ps : List String) (cs : List (List Nat)),
      (∀ p ∈ ps, p ≠ "") → ps.map b64decode = cs.map some →
      receiveEvents cb (ps.map audioDeltaMsg) = cs.map Effect.enqueue := by
  intro ps
  induction ps with
  | nil =>
    intro cs _ h
    cases cs with
    | nil => rfl
    | cons c cs => simp at h
  | cons p ps ih =>
    intro cs hne h
    cases cs with
    | nil => simp at h
    | cons c cs =>
      simp only [List.map_cons, List.cons.injEq] at h
      rw [List.map_cons, List.map_cons,
          receiveEvents_audioDelta_ok cb p c (hne p (by simp)) h.1,
          ih cs (fun q hq => hne q (by simp [hq])) h.2]

lemma enqueues_map_enqueue (cs : List (List Nat)) :
    enqueues (cs.map Effect.enqueue) = cs := by
  induction cs with
  | nil => rfl
  | cons c cs ih => simpa [enqueues, List.filterMap_cons] using ih

/-- C7: the playback queue receives exactly the base64-decoded payload
bytes of a sequence of valid audio delta events, in arrival order (FIFO,
no reordering, no dedup, no merging); in particular payload `"AAEC"`
enqueues exactly the bytes `[0, 1, 2]`. -/
theorem c7_fifo_exact (cb : Bool) (ps : List String) (cs : List (List Nat))
    (hne : ∀ p ∈ ps, p ≠ "") (h : ps.map b64decode = cs.map some) :
    enqueues (receiveEvents cb (ps.map audioDeltaMsg)) = cs ∧
    receiveEvents true [audioDeltaMsg "AAEC"] = [Effect.enqueue [0, 1, 2]] := by
  refine ⟨?_, by decide⟩
  rw [receiveEvents_audioDeltas cb ps cs hne h, enqueues_map_enqueue]

/-- C7 witness: two deltas enqueue their two decoded chunks in order. -/
theorem c7_witness :
    enqueues (receiveEvents true (["AAEC", "QQ=="].map audioDeltaMsg))
      = [[0, 1, 2], [65]] ∧
    receiveEvents true [audioDeltaMsg "AAEC"] = [Effect.enqueue [0, 1, 2]] :=
  c7_fifo_exact true ["AAEC", "QQ=="] [[0, 1, 2], [65]]
    (by decide) (by decide)

lemma sendAudio_eq_map (frames : List (List Nat)) :
    sendAudio frames = frames.map audioAppendEvent := by
  induction frames with
  | nil => rfl
  | cons f fs ih => simp [sendAudio, ih]

/-- C8: the capture loop sends exactly one append message per captured
frame, of the form `{"type": "input_audio_buffer.append", "audio":
base64(frame)}`, and base64-decoding the sent audio field recovers the
frame exactly. -/
theorem c8_append_roundtrip (frames : List (List Nat)) (f : List Nat)
    (hf : ∀ x ∈ f, x < 256) :
    sendAudio frames = frames.map audioAppendEvent ∧
    audioField (audioAppendEvent f) = some (b64encode f) ∧
    (audioField (audioAppendEvent f)).bind b64decode = some f := by
  refine ⟨sendAudio_eq_map frames, rfl, ?_⟩
  simp [audioField, audioAppendEvent, b64_roundtrip f hf]

/-- C8 witness: the frame `[0, 1, 2]` is sent as one message whose audio
field decodes back to `[0, 1, 2]`. -/
theorem c8_witness :
    sendAudio [[0, 1, 2]] = [[0, 1, 2]].map audioAppendEvent ∧
    audioField (audioAppendEvent [0, 1, 2]) = some (b64encode [0, 1, 2]) ∧
    (audioField (audioAppendEvent [0, 1, 2])).bind b64decode
      = some [0, 1, 2] :=
  c8_append_roundtrip [[0, 1, 2]] [0, 1, 2] (by decide)

/-- C9: the application messages the client sends (the one
session-configuration message and every audio-append message) do not
depend on the API key in any way — two configurations differing only in
the key produce identical message bodies — and the credential travels
only as the `api-key` connection header. -/
theorem c9_key_only_in_header (c : Config) (k1 k2 : String)
    (frames : List (List Nat)) :
    sentAppMessages { c with apiKey := k1 } frames
      = sentAppMessages { c with apiKey := k2 } frames ∧
    connectHeaders c = [("api-key", c.apiKey)] :=
  ⟨rfl, rfl⟩

/-- C10: a completed transcript event with empty or missing text, or a
client with no registered callback, never invokes the transcript sink;
consequently every sink invocation the dispatcher ever produces carries
non-empty text and happens only when a callback is registered. -/
theorem c10_sink_needs_text_and_callback (cb : Bool) (e : JsonEvent)
    (effs : List Effect) (h : handleEvent cb e = .ok effs) :
    ((e.transcript.getD "" = "" ∨ cb = false) → sinkCalls effs = []) ∧
    (∀ r t, Effect.sink r t ∈ effs → t ≠ "" ∧ cb = true) := by
  unfold handleEvent at h
  simp only [ne_eq] at h
  split_ifs at h with h1 h2 h3 h4 h5 h6 h7 h8 h9
  all_goals
    try (simp only [Except.ok.injEq] at h; subst h)
  all_goals
    try exact ⟨fun _ => rfl, by simp⟩
  · -- sink "user" branch: h4 says transcript nonempty and callback set
    refine ⟨fun hpre => ?_, fun r t hmem => ?_⟩
    · rcases hpre with hpre | hpre
      · exact absurd hpre h4.1
      · rw [hpre] at h4
        simp at h4
    · simp only [List.mem_singleton, Effect.sink.injEq] at hmem
      exact ⟨by rw [hmem.2]; exact h4.1, h4.2⟩
  · -- sink "assistant" branch: h7 analogous
    refine ⟨fun hpre => ?_, fun r t hmem => ?_⟩
    · rcases hpre with hpre | hpre
      · exact absurd hpre h7.1
      · rw [hpre] at h7
        simp at h7
    · simp only [List.mem_singleton, Effect.sink.injEq] at hmem
      exact ⟨by rw [hmem.2]; exact h7.1, h7.2⟩
  · -- response.audio.delta branch with a non-empty payload
    cases hb : b64decode (e.delta.getD "") with
    | some bytes =>
      rw [hb] at h
      simp only [Except.ok.injEq] at h
      subst h
      exact ⟨fun _ => rfl, by simp⟩
    | none =>
      rw [hb] at h
      simp at h

/-- C10 witness: a done event with empty text and an input-transcription
event on a client with no callback both produce no sink call. -/
theorem c10_witness :
    (((JsonEvent.mk (some "response.audio_transcript.done") (some "") none
        ).transcript.getD "" = "" ∨ (true : Bool) = false) →
      sinkCalls [] = []) ∧
    (∀ r t, Effect.sink r t ∈ ([] : List Effect) → t ≠ "" ∧ (true : Bool) = true) :=
  c10_sink_needs_text_and_callback true
    (JsonEvent.mk (some "response.audio_transcript.done") (some "") none)
    [] (by rfl)
